import Mathlib

/-!
Verification of the hypothesis-testing engine of the
`insurance-risk-ap-modeling` repository.

The engine lives in `src/hypothesis_testing/` (`metrics.py`,
`segmentation.py`, `statistical_tests.py`) and is orchestrated by
`scripts/run_hypothesis_tests.py`.  This file shallowly embeds those
functions over an explicit model of a pandas DataFrame:

* a cell is an exact rational (`Cell.num`), a missing numeric value
  (`Cell.nan`, pandas NaN), or a categorical/text value (`Cell.str`);
* a DataFrame is a list of rows tagged with their pandas index label,
  together with the column list and the set of columns whose dtype is
  numeric (`int64`/`float64`);
* the scipy statistic routines (`ttest_ind`, `chi2_contingency`,
  `mannwhitneyu`) are parameters (`Scipy`): every theorem below holds for
  every implementation of them, because the properties at issue are about
  the engine's own guards, dispatch and data preparation, not about the
  numeric value of a statistic.  The conditions under which scipy raises
  (zero marginals in `chi2_contingency`, an empty sample in
  `mannwhitneyu`) are part of the embedding, since the Python code
  catches those exceptions and converts them to a `(nan, nan)` return;
* a Python function that logs a reason and returns `(nan, nan)` is
  embedded as a function into `TestOutcome`, whose `err` constructor
  records the logged reason; `toPair` collapses it to the actual
  `(nan, nan)` return value.
-/

namespace InsuranceRisk

/-- One cell of a record set: an exact numeric value, a missing numeric
value (pandas `NaN`), or a categorical/text value. -/
inductive Cell where
  | num (q : ℚ)
  | nan
  | str (s : String)
deriving DecidableEq, Repr

/-- A row is an association list from column name to cell. -/
abbrev Row := List (String × Cell)

/-- Value of column `c` in row `r`.  Callers in the embedded code only
read columns they have checked for (or columns whose absence they model
explicitly as a caught `KeyError`), so the `.nan` default for an absent
key is never what a theorem rests on. -/
def rowGet : Row → String → Cell
  | [], _ => .nan
  | (k, v) :: t, c => if k = c then v else rowGet t c

/-- A pandas DataFrame: the column list, the subset of columns whose
dtype is `int64`/`float64`, and the rows tagged with their index label. -/
structure DataFrame where
  cols : List String
  numericCols : List String
  rows : List (Nat × Row)
deriving DecidableEq, Repr

/-- `len(df)`. -/
def DataFrame.nRows (df : DataFrame) : Nat := df.rows.length

/-- `c in df.columns`. -/
def DataFrame.hasCol (df : DataFrame) (c : String) : Bool := df.cols.contains c

/-- Boolean row filter (`df[mask]`): keeps columns, dtypes and the index
labels of the surviving rows. -/
def DataFrame.filterRows (df : DataFrame) (p : Row → Bool) : DataFrame :=
  ⟨df.cols, df.numericCols, df.rows.filter (fun ir => p ir.2)⟩

/-- The cells of column `c`, in row order (`df[c]` without the index). -/
def colCells (df : DataFrame) (c : String) : List Cell :=
  df.rows.map (fun ir => rowGet ir.2 c)

/-- The numeric content of a cell, if any. -/
def toNum? : Cell → Option ℚ
  | .num q => some q
  | _ => none

/-- `series.dropna()`: the numeric values of the cells. -/
def dropna (xs : List Cell) : List ℚ := xs.filterMap toNum?

/-- `cell > 0` as pandas evaluates it: `NaN > 0` is `False`. -/
def cellGt0 : Cell → Bool
  | .num q => decide (0 < q)
  | _ => false

/-- `cell <= 0` as pandas evaluates it: `NaN <= 0` is `False`. -/
def cellLe0 : Cell → Bool
  | .num q => decide (q ≤ 0)
  | _ => false

/-- Elementwise `==` as pandas evaluates it: `NaN` equals nothing. -/
def cellEqVal (a b : Cell) : Bool :=
  match a, b with
  | .nan, _ => false
  | _, .nan => false
  | a, b => a == b

/-- Elementwise subtraction with NaN propagation. -/
def vsub : Cell → Cell → Cell
  | .num a, .num b => .num (a - b)
  | _, _ => .nan

/-- Elementwise division with NaN propagation.  The zero-denominator
branch returns `.nan`; theorem `C4` below shows the engine never reaches
a division with a zero denominator, which is what the repository relies
on (`calculate_loss_ratio` filters `TotalPremium > 0` first, and the
test functions refuse groups containing a non-positive premium). -/
def vdiv : Cell → Cell → Cell
  | .num a, .num b => if b = 0 then .nan else .num (a / b)
  | _, _ => .nan

/-- `series.mean()` with pandas' default `skipna=True`: the mean of the
numeric cells, `NaN` when there is none. -/
def meanV (xs : List Cell) : Cell :=
  let ys := dropna xs
  if ys.isEmpty then .nan else .num (ys.sum / (ys.length : ℚ))

/-! ## Segmenter (`segmentation.py`, `ab_segment`) -/

/-- The two failure conditions of `ab_segment`: `KeyError` for a missing
feature column, `ValueError` when a segment comes out empty. -/
inductive SegError where
  | featureNotFound
  | emptySegment
deriving DecidableEq, Repr

/-- Result of `ab_segment`: the two groups, or the raised error. -/
inductive SegResult where
  | ok (a b : DataFrame)
  | error (e : SegError)
deriving DecidableEq, Repr

/-- The rows selected for one group: `df[df[feature] == value]`. -/
def segmentOf (df : DataFrame) (feature : String) (v : Cell) : DataFrame :=
  df.filterRows (fun r => cellEqVal (rowGet r feature) v)

/-- `ab_segment(df, feature, group_a, group_b)` from `segmentation.py`:
raises `KeyError` when `feature` is absent, filters both groups by exact
equality, and raises `ValueError` when either group is empty. -/
def ab_segment (df : DataFrame) (feature : String) (ga gb : Cell) : SegResult :=
  if ¬ df.hasCol feature then .error .featureNotFound
  else
    let dfa := segmentOf df feature ga
    let dfb := segmentOf df feature gb
    if dfa.rows.isEmpty ∨ dfb.rows.isEmpty then .error .emptySegment
    else .ok dfa dfb

/-! ## MetricsEngine (`metrics.py`)

Each `calculate_*` function takes the optional `group_by` column list and
the `as_series` flag of the source and returns either a scalar or a
grouped series.  One deliberate modelling difference: pandas `groupby`
sorts group keys, while `groupBy` below keeps them in first-appearance
order; no theorem in this file depends on the order of groups (the
non-series return is a mean over group means, which is order-free). -/

/-- A `calculate_*` return value: a scalar (`float`), or the per-group
series (group key, value) produced under `as_series=True`. -/
inductive MetricResult where
  | scalar (v : Cell)
  | series (xs : List (List Cell × Cell))
deriving DecidableEq, Repr

/-- The grouping key of a row. -/
def keyOf (r : Row) (ks : List String) : List Cell := ks.map (rowGet r)

/-- Append row `r` to the group keyed `k`, keeping group order. -/
def insertGrouped (k : List Cell) (r : Row) :
    List (List Cell × List Row) → List (List Cell × List Row)
  | [] => [(k, [r])]
  | (k', rs) :: t =>
      if k = k' then (k', rs ++ [r]) :: t else (k', rs) :: insertGrouped k r t

/-- `df.groupby(ks)` over bare rows: rows whose key contains `NaN` are
dropped (pandas' `dropna=True` default); groups appear in
first-appearance order (pandas sorts; see the section comment). -/
def groupBy (rows : List Row) (ks : List String) : List (List Cell × List Row) :=
  rows.foldl
    (fun acc r =>
      if (keyOf r ks).contains .nan then acc else insertGrouped (keyOf r ks) r acc)
    []

/-- The rows `calculate_loss_ratio` keeps: `df[df['TotalPremium'] > 0]`. -/
def validPremiumRows (df : DataFrame) : List (Nat × Row) :=
  df.rows.filter (fun ir => cellGt0 (rowGet ir.2 "TotalPremium"))

/-- One row's `TotalClaims / TotalPremium`. -/
def lossRatioCell (r : Row) : Cell :=
  vdiv (rowGet r "TotalClaims") (rowGet r "TotalPremium")

/-- The premium cells that stand as denominators in `calculate_loss_ratio`:
exactly the premium column of the rows surviving the `> 0` filter. -/
def lossRatioDenoms (df : DataFrame) : List Cell :=
  (validPremiumRows df).map (fun ir => rowGet ir.2 "TotalPremium")

/-- `calculate_loss_ratio` (`metrics.py`): `NaN` when a required column is
missing; rows with non-positive premium are filtered out before any
division; `NaN` when no row survives; otherwise the mean (overall or by
group) of per-row `TotalClaims / TotalPremium`. -/
def calculate_loss_ratio (df : DataFrame) (group_by : Option (List String))
    (as_series : Bool) : MetricResult :=
  if ¬ (df.hasCol "TotalClaims" ∧ df.hasCol "TotalPremium") then .scalar .nan
  else
    let valid := validPremiumRows df
    if valid.isEmpty then .scalar .nan
    else
      match group_by with
      | some ks =>
          let gs := groupBy (valid.map (·.2)) ks
          if gs.isEmpty then .scalar .nan
          else
            let gvals := gs.map (fun g => (g.1, meanV (g.2.map lossRatioCell)))
            if as_series then .series gvals
            else .scalar (meanV (gvals.map (·.2)))
      | none => .scalar (meanV (valid.map (fun ir => lossRatioCell ir.2)))

/-- One row's `has_claim` indicator: `1` iff `TotalClaims > 0`. -/
def hasClaimCell (r : Row) : Cell :=
  .num (if cellGt0 (rowGet r "TotalClaims") then 1 else 0)

/-- `calculate_claim_frequency` (`metrics.py`): the mean of the 0/1
`has_claim` indicator, overall or by group. -/
def calculate_claim_frequency (df : DataFrame) (group_by : Option (List String))
    (as_series : Bool) : MetricResult :=
  if ¬ df.hasCol "TotalClaims" then .scalar .nan
  else
    match group_by with
    | some ks =>
        let gs := groupBy (df.rows.map (·.2)) ks
        if gs.isEmpty then .scalar .nan
        else
          let gvals := gs.map (fun g => (g.1, meanV (g.2.map hasClaimCell)))
          if as_series then .series gvals
          else .scalar (meanV (gvals.map (·.2)))
    | none => .scalar (meanV (df.rows.map (fun ir => hasClaimCell ir.2)))

/-- `calculate_claim_severity` (`metrics.py`): mean `TotalClaims` over the
rows with a claim, `NaN` when there is none. -/
def calculate_claim_severity (df : DataFrame) (group_by : Option (List String))
    (as_series : Bool) : MetricResult :=
  if ¬ df.hasCol "TotalClaims" then .scalar .nan
  else
    let claims := df.rows.filter (fun ir => cellGt0 (rowGet ir.2 "TotalClaims"))
    if claims.isEmpty then .scalar .nan
    else
      match group_by with
      | some ks =>
          let gs := groupBy (claims.map (·.2)) ks
          if gs.isEmpty then .scalar .nan
          else
            let gvals :=
              gs.map (fun g => (g.1, meanV (g.2.map (fun r => rowGet r "TotalClaims"))))
            if as_series then .series gvals
            else .scalar (meanV (gvals.map (·.2)))
      | none => .scalar (meanV (claims.map (fun ir => rowGet ir.2 "TotalClaims")))

/-- One row's margin: `TotalPremium - TotalClaims` (NaN-propagating). -/
def marginCell (r : Row) : Cell :=
  vsub (rowGet r "TotalPremium") (rowGet r "TotalClaims")

/-- `calculate_margin` (`metrics.py`): the mean of per-row
`TotalPremium - TotalClaims`, overall or by group. -/
def calculate_margin (df : DataFrame) (group_by : Option (List String))
    (as_series : Bool) : MetricResult :=
  if ¬ (df.hasCol "TotalPremium" ∧ df.hasCol "TotalClaims") then .scalar .nan
  else
    match group_by with
    | some ks =>
        let gs := groupBy (df.rows.map (·.2)) ks
        if gs.isEmpty then .scalar .nan
        else
          let gvals := gs.map (fun g => (g.1, meanV (g.2.map marginCell)))
          if as_series then .series gvals
          else .scalar (meanV (gvals.map (·.2)))
    | none => .scalar (meanV (df.rows.map (fun ir => marginCell ir.2)))

/-! ## Float64 arithmetic for the margin round-trip

The exact-rational `Cell` model above is adequate for the claims that
rest on guards, dispatch, counts and comparisons of stored values (every
IEEE-754 double is a rational, and those claims never depend on an
arithmetic result being exact).  The margin *round-trip identity*
`margin + claims == premium` is different: pandas computes
`TotalPremium - TotalClaims` in float64, and the identity is sensitive
to the rounding of that subtraction and of the re-addition.  This
section models binary64 arithmetic on the normal range: round to
nearest at 53 significant bits, ties to the even significand.  Overflow
and subnormals are out of scope — every value the theorems below touch
lies well inside the normal range, where this is exactly the IEEE-754
binary64 rounding that pandas float64 applies to each operation. -/

/-- The scaling exponent that brings a positive rational into the
53-bit significand range `[2^52, 2^53)`: with `e = Int.log 2 q` one has
`2^e ≤ q < 2^(e+1)`, so `q * 2^(52 - e) ∈ [2^52, 2^53)`. -/
def sigScale (q : ℚ) : ℤ := 52 - Int.log 2 q

/-- The scaled significand rounded down. -/
def sigFloor (q : ℚ) : ℤ := ⌊q * 2 ^ sigScale q⌋

/-- The scaled significand rounded to nearest, ties to even. -/
def sigRound (q : ℚ) : ℤ :=
  if 1 / 2 < q * 2 ^ sigScale q - sigFloor q then sigFloor q + 1
  else if q * 2 ^ sigScale q - sigFloor q < 1 / 2 then sigFloor q
  else if sigFloor q % 2 = 0 then sigFloor q else sigFloor q + 1

/-- Binary64 rounding of a positive rational: the rounded significand
scaled back. -/
def roundPos (q : ℚ) : ℚ := (sigRound q : ℚ) * 2 ^ (-sigScale q)

/-- Binary64 round-to-nearest-even on the normal range, extended to all
of `ℚ` by sign symmetry (IEEE rounding is odd). -/
def roundD (q : ℚ) : ℚ :=
  if q = 0 then 0 else if 0 < q then roundPos q else -roundPos (-q)

/-- Float64 subtraction: the correctly rounded exact difference. -/
def f64sub (a b : ℚ) : ℚ := roundD (a - b)

/-- Float64 addition: the correctly rounded exact sum. -/
def f64add (a b : ℚ) : ℚ := roundD (a + b)

/-- Elementwise float64 subtraction with NaN propagation: what pandas
actually does for `df['TotalPremium'] - df['TotalClaims']`. -/
def vsubF64 : Cell → Cell → Cell
  | .num a, .num b => .num (f64sub a b)
  | _, _ => .nan

/-- One row's margin as pandas float64 computes it. -/
def marginCellF64 (r : Row) : Cell :=
  vsubF64 (rowGet r "TotalPremium") (rowGet r "TotalClaims")

/-! ## Scipy collaborators

The statistic routines are external collaborators: the engine's contract
does not depend on the numbers they return, so they are a parameter.
Each returns `(statistic, p_value)`; either component may be `NaN`. -/

/-- The three scipy routines the engine calls. -/
structure Scipy where
  ttest_ind : List ℚ → List ℚ → Cell × Cell
  chi2_contingency : List (List ℕ) → Cell × Cell
  mannwhitneyu : List ℚ → List ℚ → Cell × Cell

/-- A concrete implementation to instantiate closed evaluations with:
every theorem below holds for every `Scipy`, so any total instance will
do for a witness. -/
def scipyStub : Scipy :=
  ⟨fun _ _ => (.num 0, .num 1), fun _ => (.num 0, .num 1), fun _ _ => (.num 0, .num 1)⟩

/-! ## BalanceChecker (`segmentation.py`, `ensure_balance` /
`flag_imbalances`) -/

/-- One record of the balance DataFrame built by `ensure_balance`: the
numeric branch also stores the two group means. -/
structure BalanceRecord where
  covariate : String
  p_value : Cell
  test_type : String
  a_mean : Option Cell
  b_mean : Option Cell
deriving DecidableEq, Repr

/-- `fillna('Unknown')` on a categorical cell. -/
def fillUnknown : Cell → Cell
  | .nan => .str "Unknown"
  | c => c

/-- The pairs `pd.crosstab(df_a[cov].fillna(...), df_b[cov].fillna(...))`
actually tabulates.  pandas aligns the two Series on the *intersection*
of their indices (`get_objs_combined_axis(..., intersect=True)`) and
cross-tabulates the aligned value pairs — it does not pool the two
groups' value counts.  For two disjoint segments the intersection is
empty, so the table is empty. -/
def alignedPairs (dfa dfb : DataFrame) (cov : String) : List (Cell × Cell) :=
  dfa.rows.filterMap (fun ir =>
    match dfb.rows.find? (fun jr => jr.1 == ir.1) with
    | some jr => some (fillUnknown (rowGet ir.2 cov), fillUnknown (rowGet jr.2 cov))
    | none => none)

/-- The contingency table over aligned pairs: rows are the distinct
first components, columns the distinct second components. -/
def crosstab (pairs : List (Cell × Cell)) : List (List ℕ) :=
  let rs := (pairs.map (·.1)).dedup
  let cs := (pairs.map (·.2)).dedup
  rs.map (fun r => cs.map (fun c => (pairs.filter (fun p => p.1 == r && p.2 == c)).length))

/-- `ensure_balance(df_a, df_b, covariates)` (`segmentation.py`): for each
covariate, skip it when missing from either group; run Welch's t-test on
the two dropna'd columns when group A's dtype is numeric (recording
p-value and group means); otherwise cross-tabulate the two columns and
skip unless the table has at least 2 rows and 2 columns, else record the
chi-squared p-value.  Skipped covariates leave no record (the Python
`continue`). -/
def ensure_balance (S : Scipy) (dfa dfb : DataFrame) (covariates : List String) :
    List BalanceRecord :=
  covariates.filterMap (fun cov =>
    if ¬ (dfa.hasCol cov ∧ dfb.hasCol cov) then none
    else if dfa.numericCols.contains cov then
      some ⟨cov, (S.ttest_ind (dropna (colCells dfa cov)) (dropna (colCells dfb cov))).2,
        "t-test", some (meanV (colCells dfa cov)), some (meanV (colCells dfb cov))⟩
    else
      let pairs := alignedPairs dfa dfb cov
      if (pairs.map (·.1)).dedup.length < 2 ∨ (pairs.map (·.2)).dedup.length < 2 then none
      else some ⟨cov, (S.chi2_contingency (crosstab pairs)).2, "chi-squared", none, none⟩)

/-- `p_value < threshold` as the Python comparison evaluates on a float
cell: `NaN < t` is `False`. -/
def cellLtQ (c : Cell) (t : ℚ) : Bool :=
  match c with
  | .num q => decide (q < t)
  | _ => false

/-- `flag_imbalances(balance_df, threshold)` (`segmentation.py`): the
records with `p_value < threshold`; an empty balance DataFrame has no
`p_value` column, so the guard returns the empty result directly. -/
def flag_imbalances (bal : List BalanceRecord) (threshold : ℚ) : List BalanceRecord :=
  if bal.isEmpty then []
  else bal.filter (fun r => cellLtQ r.p_value threshold)

/-! ## TestDispatcher (`statistical_tests.py`) -/

/-- The logged reason attached to a `(nan, nan)` return of a test
function.  The Python functions log a message and return
`(float('nan'), float('nan'))`; the constructor records which branch
produced it (`caughtException` stands for an exception the `try/except`
swallowed, e.g. a `KeyError` on a missing column or a scipy raise). -/
inductive Cond where
  | missingColumn
  | insufficientSample
  | noClaimData
  | badPremium
  | unsupportedKPI
  | unsupportedTest
  | degenerateTable
  | caughtException
deriving DecidableEq, Repr

/-- Outcome of one test function: the scipy `(statistic, p_value)` pair,
or a failure with its logged reason. -/
inductive TestOutcome where
  | ok (r : Cell × Cell)
  | err (c : Cond)
deriving DecidableEq, Repr

/-- Whether a statistic was actually computed. -/
def TestOutcome.isOk : TestOutcome → Bool
  | .ok _ => true
  | .err _ => false

/-- The tuple the Python function actually returns: every failure is
collapsed to `(nan, nan)`. -/
def toPair : TestOutcome → Cell × Cell
  | .ok r => r
  | .err _ => (.nan, .nan)

/-- `(count of has_claim == 0, count of has_claim == 1)` for one group:
`value_counts().reindex([0, 1], fill_value=0)` over
`(df['TotalClaims'] > 0).astype(int)`; pandas counts `NaN > 0` as `False`. -/
def claimCounts (df : DataFrame) : ℕ × ℕ :=
  (df.rows.countP (fun ir => !cellGt0 (rowGet ir.2 "TotalClaims")),
   df.rows.countP (fun ir => cellGt0 (rowGet ir.2 "TotalClaims")))

/-- `chi2_test(df_a, df_b, kpi)` (`statistical_tests.py`): checks the
`TotalClaims` column, then the 30-row minimum, builds the 2×2 table of
claim/no-claim counts per group and hands it to `chi2_contingency`.
scipy raises (caught, logged, `(nan, nan)`) when a marginal of the table
is zero, since an expected frequency is then zero.  The `kpi` argument
is never read. -/
def chi2_test (S : Scipy) (dfa dfb : DataFrame) (kpi : String) : TestOutcome :=
  if ¬ (dfa.hasCol "TotalClaims" ∧ dfb.hasCol "TotalClaims") then .err .missingColumn
  else if dfa.nRows < 30 ∨ dfb.nRows < 30 then .err .insufficientSample
  else if (claimCounts dfa).1 + (claimCounts dfa).2 = 0 ∨
          (claimCounts dfb).1 + (claimCounts dfb).2 = 0 ∨
          (claimCounts dfa).1 + (claimCounts dfb).1 = 0 ∨
          (claimCounts dfa).2 + (claimCounts dfb).2 = 0 then
    .err .degenerateTable
  else
    .ok (S.chi2_contingency
      [[(claimCounts dfa).1, (claimCounts dfa).2],
       [(claimCounts dfb).1, (claimCounts dfb).2]])

/-- The severity sample of one group:
`df[df['TotalClaims'] > 0]['TotalClaims']`. -/
def severityCells (df : DataFrame) : List Cell :=
  (df.rows.filter (fun ir => cellGt0 (rowGet ir.2 "TotalClaims"))).map
    (fun ir => rowGet ir.2 "TotalClaims")

/-- The margin sample of one group: `df['TotalPremium'] - df['TotalClaims']`. -/
def marginCells (df : DataFrame) : List Cell :=
  df.rows.map (fun ir => marginCell ir.2)

/-- The loss-ratio sample of one group:
`df['TotalClaims'] / df['TotalPremium']`. -/
def ratioCells (df : DataFrame) : List Cell :=
  df.rows.map (fun ir => lossRatioCell ir.2)

/-- `(df['TotalPremium'] <= 0).any()`. -/
def anyPremNonPos (df : DataFrame) : Bool :=
  df.rows.any (fun ir => cellLe0 (rowGet ir.2 "TotalPremium"))

/-- `ttest(df_a, df_b, kpi)` (`statistical_tests.py`): 30-row minimum
first; then per-KPI data preparation — `severity` filters to rows with a
claim and fails when a group has none, `margin` subtracts the two
columns, `loss_ratio` checks both columns and refuses any non-positive
premium before dividing; an unsupported KPI fails; otherwise Welch's
t-test on the dropna'd samples.  A missing column in the `severity` or
`margin` branch is a `KeyError` the `except` swallows. -/
def ttest (S : Scipy) (dfa dfb : DataFrame) (kpi : String) : TestOutcome :=
  if dfa.nRows < 30 ∨ dfb.nRows < 30 then .err .insufficientSample
  else if kpi = "severity" then
    if ¬ (dfa.hasCol "TotalClaims" ∧ dfb.hasCol "TotalClaims") then .err .caughtException
    else if (severityCells dfa).isEmpty ∨ (severityCells dfb).isEmpty then .err .noClaimData
    else .ok (S.ttest_ind (dropna (severityCells dfa)) (dropna (severityCells dfb)))
  else if kpi = "margin" then
    if ¬ (dfa.hasCol "TotalPremium" ∧ dfa.hasCol "TotalClaims" ∧
          dfb.hasCol "TotalPremium" ∧ dfb.hasCol "TotalClaims") then .err .caughtException
    else .ok (S.ttest_ind (dropna (marginCells dfa)) (dropna (marginCells dfb)))
  else if kpi = "loss_ratio" then
    if ¬ (dfa.hasCol "TotalClaims" ∧ dfa.hasCol "TotalPremium" ∧
          dfb.hasCol "TotalClaims" ∧ dfb.hasCol "TotalPremium") then .err .missingColumn
    else if anyPremNonPos dfa ∨ anyPremNonPos dfb then .err .badPremium
    else .ok (S.ttest_ind (dropna (ratioCells dfa)) (dropna (ratioCells dfb)))
  else .err .unsupportedKPI

/-- `mann_whitney_u(df_a, df_b, kpi)` (`statistical_tests.py`): same
shape as `ttest` but with *no* `margin` branch — only `severity` and
`loss_ratio` are dispatched, anything else is an unsupported KPI.
`scipy.stats.mannwhitneyu` raises on an empty sample; the `except`
swallows it. -/
def mann_whitney_u (S : Scipy) (dfa dfb : DataFrame) (kpi : String) : TestOutcome :=
  if dfa.nRows < 30 ∨ dfb.nRows < 30 then .err .insufficientSample
  else if kpi = "severity" then
    if ¬ (dfa.hasCol "TotalClaims" ∧ dfb.hasCol "TotalClaims") then .err .caughtException
    else if (severityCells dfa).isEmpty ∨ (severityCells dfb).isEmpty then .err .noClaimData
    else if (dropna (severityCells dfa)).isEmpty ∨ (dropna (severityCells dfb)).isEmpty then
      .err .caughtException
    else .ok (S.mannwhitneyu (dropna (severityCells dfa)) (dropna (severityCells dfb)))
  else if kpi = "loss_ratio" then
    if ¬ (dfa.hasCol "TotalClaims" ∧ dfa.hasCol "TotalPremium" ∧
          dfb.hasCol "TotalClaims" ∧ dfb.hasCol "TotalPremium") then .err .missingColumn
    else if anyPremNonPos dfa ∨ anyPremNonPos dfb then .err .badPremium
    else if (dropna (ratioCells dfa)).isEmpty ∨ (dropna (ratioCells dfb)).isEmpty then
      .err .caughtException
    else .ok (S.mannwhitneyu (dropna (ratioCells dfa)) (dropna (ratioCells dfb)))
  else .err .unsupportedKPI

/-- `run_test(df_a, df_b, test_type, kpi)` (`statistical_tests.py`): the
dispatch table `{"chi2": chi2_test, "ttest": ttest, "mw_u":
mann_whitney_u}`; an unknown test type logs an error and returns
`(nan, nan)`. -/
def run_test (S : Scipy) (dfa dfb : DataFrame) (test_type kpi : String) : TestOutcome :=
  if test_type = "chi2" then chi2_test S dfa dfb kpi
  else if test_type = "ttest" then ttest S dfa dfb kpi
  else if test_type = "mw_u" then mann_whitney_u S dfa dfb kpi
  else .err .unsupportedTest

/-! ## Orchestrating pipeline (`scripts/run_hypothesis_tests.py`,
`run_tests`)

`run_tests` is embedded from the point after the CSV load: it takes the
materialized record set directly.  Per spec it segments, optionally
balance-checks, computes the group KPIs (used only in log lines — the
calls are pure, so they are elided here), dispatches the test and
appends one result row; every per-spec failure is a `continue`. -/

/-- One configured test specification (`cfg["tests"][i]`). -/
structure TestSpec where
  name : String
  feature : String
  group_a : Cell
  group_b : Cell
  kpi : String
  test : String
  covariates : List String
deriving DecidableEq, Repr

/-- One appended result row (`results.append({...})`). -/
structure ResultRow where
  name : String
  kpi : String
  statistic : Cell
  p_value : Cell
  alpha : ℚ
deriving DecidableEq, Repr

/-- The KPI names `run_tests` computes group KPIs for; any other KPI hits
the `else: continue` branch. -/
def kpiKnown (k : String) : Bool :=
  k = "frequency" || k = "severity" || k = "margin" || k = "loss_ratio"

/-- The balance-check block of the loop: vacuously true when the spec
lists no covariates; otherwise the spec survives only when
`ensure_balance` produced at least one record (the empty DataFrame has
no `p_value` column) and `flag_imbalances` at threshold 0.05 flags
nothing. -/
def balanceOk (S : Scipy) (dfa dfb : DataFrame) (covs : List String) : Bool :=
  if covs.isEmpty then true
  else ¬ (ensure_balance S dfa dfb covs).isEmpty ∧
       (flag_imbalances (ensure_balance S dfa dfb covs) (5 / 100)).isEmpty

/-- One iteration of the `for test in cfg["tests"]` loop: `none` is a
`continue` (segmentation failure, failed or imbalanced balance check,
unknown KPI), `some` is the appended row. -/
def runSpec (S : Scipy) (df : DataFrame) (alpha : ℚ) (t : TestSpec) : Option ResultRow :=
  match ab_segment df t.feature t.group_a t.group_b with
  | .error _ => none
  | .ok dfa dfb =>
      if ¬ balanceOk S dfa dfb t.covariates then none
      else if ¬ kpiKnown t.kpi then none
      else
        some ⟨t.name, t.kpi, (toPair (run_test S dfa dfb t.test t.kpi)).1,
          (toPair (run_test S dfa dfb t.test t.kpi)).2, alpha⟩

/-- `run_tests(cfg)` (`scripts/run_hypothesis_tests.py`) after the CSV
load: an empty result list when a required column is missing from the
record set, otherwise one appended row per spec the loop does not skip. -/
def run_tests (S : Scipy) (df : DataFrame) (specs : List TestSpec) (alpha : ℚ) :
    List ResultRow :=
  if ¬ (df.hasCol "TotalClaims" ∧ df.hasCol "TotalPremium") then []
  else specs.filterMap (runSpec S df alpha)

/-! ## Concrete record sets for closed evaluations

Witnesses and counterexamples below evaluate the embedded functions on
these small frames. -/

/-- A premium/claims row. -/
def rowPC (p c : ℚ) : Row := [("TotalPremium", .num p), ("TotalClaims", .num c)]

/-- A record set with the two numeric KPI columns. -/
def mkPCDF (rs : List (Nat × Row)) : DataFrame :=
  ⟨["TotalPremium", "TotalClaims"], ["TotalPremium", "TotalClaims"], rs⟩

/-- 30 rows, positive premiums, claims on the even rows. -/
def dfA30 : DataFrame :=
  mkPCDF ((List.range 30).map (fun i => (i, rowPC 10 (if i % 2 = 0 then 5 else 0))))

/-- 30 rows, positive premiums, claims on every third row, index labels
disjoint from `dfA30`. -/
def dfB30 : DataFrame :=
  mkPCDF ((List.range 30).map (fun i => (i + 100, rowPC 20 (if i % 3 = 0 then 7 else 0))))

/-- 30 rows, exactly one with a zero premium. -/
def dfZeroPrem : DataFrame :=
  mkPCDF ((List.range 30).map (fun i => (i + 200, rowPC (if i = 0 then 0 else 10) 5)))

/-- A one-row group (below the 30-row minimum). -/
def dfTiny1 : DataFrame := mkPCDF [(0, rowPC 10 5)]

/-- Another one-row group. -/
def dfTiny2 : DataFrame := mkPCDF [(1, rowPC 10 0)]

/-- A categorical covariate row. -/
def planRow (s : String) : Row := [("PlanType", .str s)]

/-- Segment A of a balance check: categorical `PlanType` with the two
categories `X` and `Y`, index labels 0 and 1. -/
def dfCatA : DataFrame := ⟨["PlanType"], [], [(0, planRow "X"), (1, planRow "Y")]⟩

/-- Segment B: the same two categories, index labels 2 and 3 (disjoint
from segment A, as `ab_segment` always produces for two distinct group
values). -/
def dfCatB : DataFrame := ⟨["PlanType"], [], [(2, planRow "X"), (3, planRow "Y")]⟩

/-- A row of the segmentation-feature column `G`. -/
def gRow (s : String) : Row := [("G", .str s)]

/-- A record set whose `G` column only ever holds `"x"`. -/
def dfOnlyX : DataFrame := ⟨["G"], [], [(0, gRow "x"), (1, gRow "x")]⟩

/-- A record set with one `"x"` row and one `"y"` row in `G`. -/
def dfXY : DataFrame := ⟨["G"], [], [(0, gRow "x"), (1, gRow "y")]⟩

/-- A record set with no rows at all and column `G`. -/
def dfEmptyG : DataFrame := ⟨["G"], [], []⟩

/-- A full pipeline row: premium, claims and the feature `G`. -/
def rowPCG (p c : ℚ) (g : String) : Row :=
  [("TotalPremium", .num p), ("TotalClaims", .num c), ("G", .str g)]

/-- The record set a small pipeline run loads: both required columns and
one `"x"` and one `"y"` row. -/
def dfRun : DataFrame :=
  ⟨["TotalPremium", "TotalClaims", "G"], ["TotalPremium", "TotalClaims"],
   [(0, rowPCG 10 5 "x"), (1, rowPCG 20 0 "y")]⟩

/-- The group `ab_segment` carves out of `dfRun` for `G == "x"`. -/
def dfRunX : DataFrame :=
  ⟨["TotalPremium", "TotalClaims", "G"], ["TotalPremium", "TotalClaims"],
   [(0, rowPCG 10 5 "x")]⟩

/-- The group `ab_segment` carves out of `dfRun` for `G == "y"`. -/
def dfRunY : DataFrame :=
  ⟨["TotalPremium", "TotalClaims", "G"], ["TotalPremium", "TotalClaims"],
   [(1, rowPCG 20 0 "y")]⟩

/-- A spec asking for a test kind the dispatch table does not know. -/
def specUnknownTest : TestSpec :=
  ⟨"t1", "G", .str "x", .str "y", "frequency", "ztest", []⟩

/-- A spec whose segmentation feature is absent from the record set. -/
def specBadFeature : TestSpec :=
  ⟨"bad", "H", .str "x", .str "y", "margin", "ttest", []⟩

/-- A valid spec: feature present, both groups non-empty, known KPI. -/
def specGood : TestSpec :=
  ⟨"good", "G", .str "x", .str "y", "margin", "ttest", []⟩

/-! ## Shared helper lemmas -/

/-- A group whose premiums are all positive numerics trips no
`TotalPremium <= 0` check. -/
lemma anyPremNonPos_eq_false (df : DataFrame)
    (h : df.rows.all (fun ir => cellGt0 (rowGet ir.2 "TotalPremium")) = true) :
    anyPremNonPos df = false := by
  rw [anyPremNonPos]
  rw [List.all_eq_true] at h
  rw [List.any_eq_false]
  intro ir hir
  have hpos := h ir hir
  cases hcell : rowGet ir.2 "TotalPremium" with
  | num q =>
      rw [hcell] at hpos
      simp only [cellGt0, decide_eq_true_eq] at hpos
      simp only [cellLe0, decide_eq_false_iff_not, decide_eq_true_eq]
      exact not_le.mpr hpos
  | nan => simp [cellLe0]
  | str s => simp [cellLe0]

/-- A row with a positive numeric premium and a numeric claims value has
a numeric loss ratio. -/
lemma lossRatioCell_isSome (r : Row)
    (hpos : cellGt0 (rowGet r "TotalPremium") = true)
    (hclm : (toNum? (rowGet r "TotalClaims")).isSome = true) :
    (toNum? (lossRatioCell r)).isSome = true := by
  rw [lossRatioCell]
  cases hp : rowGet r "TotalPremium" with
  | num q =>
      cases hc : rowGet r "TotalClaims" with
      | num c =>
          rw [hp] at hpos
          simp only [cellGt0, decide_eq_true_eq] at hpos
          simp [vdiv, toNum?, ne_of_gt hpos]
      | nan => rw [hc] at hclm; simp [toNum?] at hclm
      | str s => rw [hc] at hclm; simp [toNum?] at hclm
  | nan => rw [hp] at hpos; simp [cellGt0] at hpos
  | str s => rw [hp] at hpos; simp [cellGt0] at hpos

/-- A non-empty group all of whose loss ratios are numeric keeps a
non-empty sample after `dropna`. -/
lemma dropna_ratioCells_ne_empty (df : DataFrame) (hne : df.rows ≠ [])
    (hall : ∀ ir ∈ df.rows, (toNum? (lossRatioCell ir.2)).isSome = true) :
    (dropna (ratioCells df)).isEmpty = false := by
  rw [List.isEmpty_eq_false_iff_exists_mem]
  cases hrows : df.rows with
  | nil => exact absurd hrows hne
  | cons ir t =>
      have hmem : ir ∈ df.rows := by rw [hrows]; exact List.mem_cons_self ir t
      have hsome := hall ir hmem
      obtain ⟨q, hq⟩ := Option.isSome_iff_exists.mp hsome
      refine ⟨q, ?_⟩
      rw [dropna, ratioCells, List.mem_filterMap]
      exact ⟨lossRatioCell ir.2, List.mem_map_of_mem (fun x => lossRatioCell x.2) hmem, hq⟩

/-- Evaluation rule for binary64 rounding when the scaled significand
rounds down — either its fraction is below one half, or it sits exactly
on the tie and the floor is even. -/
lemma roundD_down_or_tie (q : ℚ) (e m : ℤ) (hq : 0 < q)
    (hlog : Int.log 2 q = e)
    (hm : ⌊q * 2 ^ (52 - e)⌋ = m)
    (hfrac : q * 2 ^ (52 - e) - m < 1 / 2 ∨
      (q * 2 ^ (52 - e) - m = 1 / 2 ∧ m % 2 = 0)) :
    roundD q = m * 2 ^ (e - 52) := by
  have hscale : sigScale q = 52 - e := by rw [sigScale, hlog]
  have hfl : sigFloor q = m := by rw [sigFloor, hscale, hm]
  have hround : sigRound q = m := by
    rw [sigRound, hfl, hscale]
    rcases hfrac with h | ⟨h, hev⟩
    · rw [if_neg (by push_neg; linarith), if_pos h]
    · rw [if_neg (by rw [h]; exact lt_irrefl _), if_neg (by rw [h]; exact lt_irrefl _),
        if_pos hev]
  rw [roundD, if_neg (ne_of_gt hq), if_pos hq, roundPos, hround, hscale, neg_sub]

/-- The double `2^53 + 1` is not representable: it rounds to the even
neighbour `2^53`.  This is the rounding step behind the margin
round-trip counterexample. -/
lemma roundD_tie53 : roundD (9007199254740993 : ℚ) = 9007199254740992 := by
  have hlog : Int.log 2 (9007199254740993 : ℚ) = 53 := by
    have h := Nat.log_eq_of_pow_le_of_lt_pow (b := 2) (m := 53) (n := 9007199254740993)
      (by norm_num) (by norm_num)
    rw [Int.log_ofNat, h]
    norm_num
  have h2 : (2:ℚ) ^ ((52:ℤ) - 53) = 1/2 := by norm_num
  have hm : ⌊(9007199254740993 : ℚ) * 2 ^ ((52:ℤ) - 53)⌋ = 4503599627370496 := by
    rw [h2, Int.floor_eq_iff]
    constructor <;> norm_num
  have h := roundD_down_or_tie (9007199254740993 : ℚ) 53 4503599627370496 (by norm_num)
    hlog hm (Or.inr ⟨by rw [h2]; push_cast; norm_num, by decide⟩)
  rw [h]
  norm_num

/-- 10 is an exact double. -/
lemma roundD_of_ten : roundD (10 : ℚ) = 10 := by
  have hlog : Int.log 2 (10 : ℚ) = 3 := by
    have h := Nat.log_eq_of_pow_le_of_lt_pow (b := 2) (m := 3) (n := 10)
      (by norm_num) (by norm_num)
    rw [Int.log_ofNat, h]
    norm_num
  have h2 : (2:ℚ) ^ ((52:ℤ) - 3) = 562949953421312 := by norm_num
  have hm : ⌊(10 : ℚ) * 2 ^ ((52:ℤ) - 3)⌋ = 5629499534213120 := by
    rw [h2, Int.floor_eq_iff]
    constructor <;> norm_num
  have h := roundD_down_or_tie (10 : ℚ) 3 5629499534213120 (by norm_num)
    hlog hm (Or.inl (by rw [h2]; push_cast; norm_num))
  rw [h]
  norm_num

/-- 6 is an exact double. -/
lemma roundD_of_six : roundD (6 : ℚ) = 6 := by
  have hlog : Int.log 2 (6 : ℚ) = 2 := by
    have h := Nat.log_eq_of_pow_le_of_lt_pow (b := 2) (m := 2) (n := 6)
      (by norm_num) (by norm_num)
    rw [Int.log_ofNat, h]
    norm_num
  have h2 : (2:ℚ) ^ ((52:ℤ) - 2) = 1125899906842624 := by norm_num
  have hm : ⌊(6 : ℚ) * 2 ^ ((52:ℤ) - 2)⌋ = 6755399441055744 := by
    rw [h2, Int.floor_eq_iff]
    constructor <;> norm_num
  have h := roundD_down_or_tie (6 : ℚ) 2 6755399441055744 (by norm_num)
    hlog hm (Or.inl (by rw [h2]; push_cast; norm_num))
  rw [h]
  norm_num

/-! ## The claims -/

/-- C1: the claim says `ensure_balance` cross-tabulates the *value
counts* of a categorical covariate between the two groups and records a
chi-square p-value whenever at least 2 distinct categories are observed.
On the code this fails: `pd.crosstab(df_a[cov], df_b[cov])` pairs the two
columns by row index, and two segments produced for distinct group
values have disjoint index sets, so the aligned table is empty and the
covariate is always skipped.  This theorem evaluates the code at such a
failing input: both groups observe the same 2 categories of `PlanType`,
yet the balance report is empty (for every scipy implementation). -/
theorem C1_categorical_covariate_always_skipped (S : Scipy) :
    (colCells dfCatA "PlanType").dedup.length = 2 ∧
    (colCells dfCatB "PlanType").dedup.length = 2 ∧
    alignedPairs dfCatA dfCatB "PlanType" = [] ∧
    ensure_balance S dfCatA dfCatB ["PlanType"] = [] :=
  ⟨by decide, by decide, by decide, rfl⟩

/-- C2 counterexample: the claim says a feature value matching zero rows
yields an empty group and "does not itself raise an exception at the
segmenter layer".  On `dfOnlyX` (whose `G` column only holds `"x"`),
segmenting on `("x", "y")` raises the empty-segment `ValueError` inside
`ab_segment` itself. -/
theorem C2_empty_segment_raises :
    ab_segment dfOnlyX "G" (.str "x") (.str "y") = .error .emptySegment := by decide

/-- C2 (amended): segmenting on a feature absent from the columns fails
with `FeatureNotFound` (`KeyError`); a feature value matching zero rows
makes `ab_segment` itself raise the `EmptySegment` condition
(`ValueError`), which the caller catches and turns into a skip; only
when both groups are non-empty are the two equality-filtered groups
returned. -/
theorem C2_segmenter_behavior (df : DataFrame) (f : String) (va vb : Cell) :
    (df.hasCol f = false → ab_segment df f va vb = .error .featureNotFound) ∧
    (df.hasCol f = true →
      ((segmentOf df f va).rows.isEmpty ∨ (segmentOf df f vb).rows.isEmpty) →
      ab_segment df f va vb = .error .emptySegment) ∧
    (df.hasCol f = true →
      ¬ ((segmentOf df f va).rows.isEmpty ∨ (segmentOf df f vb).rows.isEmpty) →
      ab_segment df f va vb = .ok (segmentOf df f va) (segmentOf df f vb)) := by
  refine ⟨fun h => ?_, fun h hemp => ?_, fun h hne => ?_⟩
  · rw [ab_segment, if_pos]
    simp [h]
  · rw [ab_segment, if_neg (by simp [h]), if_pos hemp]
  · rw [ab_segment, if_neg (by simp [h]), if_neg hne]

/-- C2 witness: the three branches of `C2_segmenter_behavior` at
concrete record sets. -/
theorem C2_segmenter_behavior_witness :
    ab_segment dfOnlyX "H" (.str "x") (.str "y") = .error .featureNotFound ∧
    ab_segment dfXY "G" (.str "x") (.str "y") =
      .ok (segmentOf dfXY "G" (.str "x")) (segmentOf dfXY "G" (.str "y")) ∧
    ab_segment dfOnlyX "G" (.str "x") (.str "y") = .error .emptySegment :=
  ⟨(C2_segmenter_behavior dfOnlyX "H" (.str "x") (.str "y")).1 (by decide),
   (C2_segmenter_behavior dfXY "G" (.str "x") (.str "y")).2.2 (by decide) (by decide),
   (C2_segmenter_behavior dfOnlyX "G" (.str "x") (.str "y")).2.1 (by decide) (by decide)⟩

/-- C3: with the `TotalClaims` column present, whenever either group has
fewer than 30 rows every test function — chi-square, Welch's t, and
Mann-Whitney U, for every KPI — fails with the insufficient-sample
condition before computing any statistic, and so does the dispatcher for
each supported test kind. -/
theorem C3_minimum_sample_gate (S : Scipy) (dfa dfb : DataFrame) (kpi : String)
    (hca : dfa.hasCol "TotalClaims" = true) (hcb : dfb.hasCol "TotalClaims" = true)
    (hsize : dfa.nRows < 30 ∨ dfb.nRows < 30) :
    chi2_test S dfa dfb kpi = .err .insufficientSample ∧
    ttest S dfa dfb kpi = .err .insufficientSample ∧
    mann_whitney_u S dfa dfb kpi = .err .insufficientSample ∧
    ∀ tk, (tk = "chi2" ∨ tk = "ttest" ∨ tk = "mw_u") →
      run_test S dfa dfb tk kpi = .err .insufficientSample := by
  have hchi : chi2_test S dfa dfb kpi = .err .insufficientSample := by
    rw [chi2_test, if_neg (by simp [hca, hcb]), if_pos hsize]
  have ht : ttest S dfa dfb kpi = .err .insufficientSample := by
    rw [ttest, if_pos hsize]
  have hm : mann_whitney_u S dfa dfb kpi = .err .insufficientSample := by
    rw [mann_whitney_u, if_pos hsize]
  refine ⟨hchi, ht, hm, fun tk htk => ?_⟩
  rcases htk with h | h | h <;> subst h
  · rw [run_test, if_pos rfl]; exact hchi
  · rw [run_test, if_neg (by decide), if_pos rfl]; exact ht
  · rw [run_test, if_neg (by decide), if_neg (by decide), if_pos rfl]; exact hm

/-- C3 witness: both groups hold a single row, and every test kind
reports the insufficient sample. -/
theorem C3_minimum_sample_gate_witness :
    chi2_test scipyStub dfTiny1 dfTiny2 "frequency" = .err .insufficientSample ∧
    ttest scipyStub dfTiny1 dfTiny2 "margin" = .err .insufficientSample ∧
    mann_whitney_u scipyStub dfTiny1 dfTiny2 "loss_ratio" = .err .insufficientSample ∧
    run_test scipyStub dfTiny1 dfTiny2 "mw_u" "severity" = .err .insufficientSample :=
  ⟨(C3_minimum_sample_gate scipyStub dfTiny1 dfTiny2 "frequency" (by decide) (by decide)
      (Or.inl (by decide))).1,
   (C3_minimum_sample_gate scipyStub dfTiny1 dfTiny2 "margin" (by decide) (by decide)
      (Or.inl (by decide))).2.1,
   (C3_minimum_sample_gate scipyStub dfTiny1 dfTiny2 "loss_ratio" (by decide) (by decide)
      (Or.inl (by decide))).2.2.1,
   (C3_minimum_sample_gate scipyStub dfTiny1 dfTiny2 "severity" (by decide) (by decide)
      (Or.inl (by decide))).2.2.2 "mw_u" (Or.inr (Or.inr rfl))⟩

/-- C4 counterexample: the claim says every row with premium ≤ 0 yields
a NaN loss ratio (which the tests would then drop from the sample).  On
the code, one zero-premium row among 30 makes the whole loss-ratio
t-test refuse to run: no per-row NaN is ever produced. -/
theorem C4_zero_premium_fails_whole_test :
    anyPremNonPos dfZeroPrem = true ∧
    ttest scipyStub dfZeroPrem dfB30 "loss_ratio" = .err .badPremium ∧
    toPair (ttest scipyStub dfZeroPrem dfB30 "loss_ratio") = (.nan, .nan) := by
  refine ⟨by decide, by decide, by decide⟩

/-- C4 (amended): loss-ratio computation never divides by zero and never
raises — but not by giving premium-≤-0 rows a NaN ratio.
`calculate_loss_ratio` excludes them before dividing: every denominator
it divides by is a positive numeric premium.  The loss-ratio branch of
the t-test and of the Mann-Whitney test instead fails the whole test as
soon as either group contains a non-positive premium, so its divisions
also only ever see positive premiums. -/
theorem C4_loss_ratio_guard (S : Scipy) (df dfa dfb : DataFrame)
    (h30a : ¬ dfa.nRows < 30) (h30b : ¬ dfb.nRows < 30)
    (hcols : dfa.hasCol "TotalClaims" = true ∧ dfa.hasCol "TotalPremium" = true ∧
             dfb.hasCol "TotalClaims" = true ∧ dfb.hasCol "TotalPremium" = true)
    (hbad : anyPremNonPos dfa = true ∨ anyPremNonPos dfb = true) :
    (∀ c ∈ lossRatioDenoms df, ∃ q : ℚ, 0 < q ∧ c = .num q) ∧
    ttest S dfa dfb "loss_ratio" = .err .badPremium ∧
    mann_whitney_u S dfa dfb "loss_ratio" = .err .badPremium := by
  obtain ⟨h1, h2, h3, h4⟩ := hcols
  refine ⟨fun c hc => ?_, ?_, ?_⟩
  · rw [lossRatioDenoms] at hc
    obtain ⟨ir, hir, rfl⟩ := List.mem_map.mp hc
    rw [validPremiumRows] at hir
    have hpos := (List.mem_filter.mp hir).2
    cases hcell : rowGet ir.2 "TotalPremium" with
    | num q =>
        rw [hcell] at hpos
        simp only [cellGt0, decide_eq_true_eq] at hpos
        exact ⟨q, hpos, rfl⟩
    | nan => rw [hcell] at hpos; simp [cellGt0] at hpos
    | str s => rw [hcell] at hpos; simp [cellGt0] at hpos
  · rw [ttest, if_neg (by simp [h30a, h30b]), if_neg (by decide), if_neg (by decide),
       if_pos rfl, if_neg (by simp [h1, h2, h3, h4]), if_pos (by simpa using hbad)]
  · rw [mann_whitney_u, if_neg (by simp [h30a, h30b]), if_neg (by decide),
       if_pos rfl, if_neg (by simp [h1, h2, h3, h4]), if_pos (by simpa using hbad)]

/-- C4 witness: `C4_loss_ratio_guard` at the 30-row group with one
zero-premium row; the valid-row denominators of that very group include
the positive premium 10. -/
theorem C4_loss_ratio_guard_witness :
    (∃ q : ℚ, 0 < q ∧ Cell.num 10 = .num q) ∧
    ttest scipyStub dfZeroPrem dfB30 "loss_ratio" = .err .badPremium ∧
    mann_whitney_u scipyStub dfZeroPrem dfB30 "loss_ratio" = .err .badPremium :=
  ⟨(C4_loss_ratio_guard scipyStub dfZeroPrem dfZeroPrem dfB30 (by decide) (by decide)
      (by decide) (Or.inl (by decide))).1 (Cell.num 10) (by decide),
   (C4_loss_ratio_guard scipyStub dfZeroPrem dfZeroPrem dfB30 (by decide) (by decide)
      (by decide) (Or.inl (by decide))).2.1,
   (C4_loss_ratio_guard scipyStub dfZeroPrem dfZeroPrem dfB30 (by decide) (by decide)
      (by decide) (Or.inl (by decide))).2.2⟩

/-- C5 counterexample: the claim says Mann-Whitney U is valid and
runnable for the margin KPI.  On two 30-row groups with both columns
present and every premium positive, `run_test(..., "mw_u", "margin")`
fails with the unsupported-KPI error (its `(nan, nan)` return), because
`mann_whitney_u` has no margin branch. -/
theorem C5_mw_margin_unsupported :
    run_test scipyStub dfA30 dfB30 "mw_u" "margin" = .err .unsupportedKPI ∧
    toPair (run_test scipyStub dfA30 dfB30 "mw_u" "margin") = (.nan, .nan) := by
  refine ⟨by decide, by decide⟩

/-- C5 (amended): on adequate groups (≥ 30 rows, both columns, positive
numeric premiums, numeric claims, claim/no-claim both observed) the
dispatch table is: chi-square runs for the binary frequency KPI;
Welch's t runs for margin and loss_ratio; Mann-Whitney U runs for
loss_ratio (on the dropna'd sample) but fails margin with an
unsupported-KPI error; and no two-proportion z-test exists — every test
kind outside {chi2, ttest, mw_u} fails with the unsupported-test
error. -/
theorem C5_dispatch_table (S : Scipy) (dfa dfb : DataFrame)
    (h30a : ¬ dfa.nRows < 30) (h30b : ¬ dfb.nRows < 30)
    (hca : dfa.hasCol "TotalClaims" = true) (hpa : dfa.hasCol "TotalPremium" = true)
    (hcb : dfb.hasCol "TotalClaims" = true) (hpb : dfb.hasCol "TotalPremium" = true)
    (hposa : dfa.rows.all (fun ir => cellGt0 (rowGet ir.2 "TotalPremium")) = true)
    (hposb : dfb.rows.all (fun ir => cellGt0 (rowGet ir.2 "TotalPremium")) = true)
    (hclma : dfa.rows.all (fun ir => (toNum? (rowGet ir.2 "TotalClaims")).isSome) = true)
    (hclmb : dfb.rows.all (fun ir => (toNum? (rowGet ir.2 "TotalClaims")).isSome) = true)
    (hnoclaimA : 0 < (claimCounts dfa).1) (hclaimA : 0 < (claimCounts dfa).2)
    (hclaimB : 0 < (claimCounts dfb).2) :
    (run_test S dfa dfb "chi2" "frequency").isOk = true ∧
    (run_test S dfa dfb "ttest" "margin").isOk = true ∧
    (run_test S dfa dfb "ttest" "loss_ratio").isOk = true ∧
    (run_test S dfa dfb "mw_u" "loss_ratio").isOk = true ∧
    run_test S dfa dfb "mw_u" "margin" = .err .unsupportedKPI ∧
    ∀ tk kpi2, ¬ (tk = "chi2" ∨ tk = "ttest" ∨ tk = "mw_u") →
      run_test S dfa dfb tk kpi2 = .err .unsupportedTest := by
  have hnpa : anyPremNonPos dfa = false := anyPremNonPos_eq_false dfa hposa
  have hnpb : anyPremNonPos dfb = false := anyPremNonPos_eq_false dfb hposb
  have hrowsa : dfa.rows ≠ [] := by
    intro h
    rw [DataFrame.nRows, h] at h30a
    exact h30a (by decide)
  have hrowsb : dfb.rows ≠ [] := by
    intro h
    rw [DataFrame.nRows, h] at h30b
    exact h30b (by decide)
  have hratioa : ∀ ir ∈ dfa.rows, (toNum? (lossRatioCell ir.2)).isSome = true := by
    intro ir hir
    exact lossRatioCell_isSome ir.2 (List.all_eq_true.mp hposa ir hir)
      (List.all_eq_true.mp hclma ir hir)
  have hratiob : ∀ ir ∈ dfb.rows, (toNum? (lossRatioCell ir.2)).isSome = true := by
    intro ir hir
    exact lossRatioCell_isSome ir.2 (List.all_eq_true.mp hposb ir hir)
      (List.all_eq_true.mp hclmb ir hir)
  refine ⟨?_, ?_, ?_, ?_, ?_, ?_⟩
  · rw [run_test, if_pos rfl, chi2_test, if_neg (by simp [hca, hcb]),
       if_neg (by simp [h30a, h30b]), if_neg (by omega)]
    rfl
  · rw [run_test, if_neg (by decide), if_pos rfl, ttest, if_neg (by simp [h30a, h30b]),
       if_neg (by decide), if_pos rfl, if_neg (by simp [hpa, hca, hpb, hcb])]
    rfl
  · rw [run_test, if_neg (by decide), if_pos rfl, ttest, if_neg (by simp [h30a, h30b]),
       if_neg (by decide), if_neg (by decide), if_pos rfl,
       if_neg (by simp [hpa, hca, hpb, hcb]), if_neg (by simp [hnpa, hnpb])]
    rfl
  · rw [run_test, if_neg (by decide), if_neg (by decide), if_pos rfl, mann_whitney_u,
       if_neg (by simp [h30a, h30b]), if_neg (by decide), if_pos rfl,
       if_neg (by simp [hpa, hca, hpb, hcb]), if_neg (by simp [hnpa, hnpb]),
       if_neg (by simp [dropna_ratioCells_ne_empty dfa hrowsa hratioa,
         dropna_ratioCells_ne_empty dfb hrowsb hratiob])]
    rfl
  · rw [run_test, if_neg (by decide), if_neg (by decide), if_pos rfl, mann_whitney_u,
       if_neg (by simp [h30a, h30b]), if_neg (by decide), if_neg (by decide)]
  · intro tk kpi2 htk
    rw [run_test, if_neg (fun h => htk (Or.inl h)),
       if_neg (fun h => htk (Or.inr (Or.inl h))),
       if_neg (fun h => htk (Or.inr (Or.inr h)))]

/-- C5 witness: the amended dispatch table at two concrete 30-row
groups, including that the would-be z-test kind is rejected. -/
theorem C5_dispatch_table_witness :
    (run_test scipyStub dfA30 dfB30 "chi2" "frequency").isOk = true ∧
    (run_test scipyStub dfA30 dfB30 "ttest" "margin").isOk = true ∧
    (run_test scipyStub dfA30 dfB30 "ttest" "loss_ratio").isOk = true ∧
    (run_test scipyStub dfA30 dfB30 "mw_u" "loss_ratio").isOk = true ∧
    run_test scipyStub dfA30 dfB30 "mw_u" "margin" = .err .unsupportedKPI ∧
    run_test scipyStub dfA30 dfB30 "ztest" "frequency" = .err .unsupportedTest :=
  have h := C5_dispatch_table scipyStub dfA30 dfB30 (by decide) (by decide) (by decide)
    (by decide) (by decide) (by decide) (by decide) (by decide) (by decide) (by decide)
    (by decide) (by decide) (by decide)
  ⟨h.1, h.2.1, h.2.2.1, h.2.2.2.1, h.2.2.2.2.1, h.2.2.2.2.2 "ztest" "frequency" (by decide)⟩

/-- C6 counterexample: the claim says an unsupported test kind is fatal
to the spec and never produces a result that looks like a completed
test.  Running the pipeline on a single spec whose test kind is
`"ztest"` appends a full result row — with NaN statistic and p-value —
instead of skipping the spec. -/
theorem C6_unknown_test_appends_row :
    run_tests scipyStub dfRun [specUnknownTest] 1 =
      [⟨"t1", "frequency", .nan, .nan, 1⟩] := by decide

/-- C6 (amended): an unknown test kind makes `run_test` log an error and
return `(nan, nan)` — the same pair every other failure (for example an
insufficient sample) returns — and the pipeline does not treat it as
fatal to the spec: a result row carrying the NaNs is still appended. -/
theorem C6_unknown_test_not_fatal (S : Scipy) (df : DataFrame) (alpha : ℚ)
    (sp : TestSpec) (dfa dfb : DataFrame)
    (hseg : ab_segment df sp.feature sp.group_a sp.group_b = .ok dfa dfb)
    (hcov : sp.covariates = []) (hkpi : kpiKnown sp.kpi = true)
    (htest : ¬ (sp.test = "chi2" ∨ sp.test = "ttest" ∨ sp.test = "mw_u")) :
    run_test S dfa dfb sp.test sp.kpi = .err .unsupportedTest ∧
    toPair (run_test S dfa dfb sp.test sp.kpi) = (.nan, .nan) ∧
    toPair (TestOutcome.err .insufficientSample) = (.nan, .nan) ∧
    runSpec S df alpha sp = some ⟨sp.name, sp.kpi, .nan, .nan, alpha⟩ := by
  have hrt : run_test S dfa dfb sp.test sp.kpi = .err .unsupportedTest := by
    rw [run_test, if_neg (fun h => htest (Or.inl h)),
       if_neg (fun h => htest (Or.inr (Or.inl h))),
       if_neg (fun h => htest (Or.inr (Or.inr h)))]
  refine ⟨hrt, by rw [hrt]; rfl, rfl, ?_⟩
  simp only [runSpec, hseg]
  rw [if_neg (by simp [balanceOk, hcov]), if_neg (by simp [hkpi]), hrt]
  rfl

/-- C6 witness: `C6_unknown_test_not_fatal` at the concrete pipeline
input of `C6_unknown_test_appends_row`. -/
theorem C6_unknown_test_not_fatal_witness :
    run_test scipyStub dfRunX dfRunY "ztest" "frequency" = .err .unsupportedTest ∧
    toPair (run_test scipyStub dfRunX dfRunY "ztest" "frequency") = (.nan, .nan) ∧
    toPair (TestOutcome.err .insufficientSample) = (.nan, .nan) ∧
    runSpec scipyStub dfRun 1 specUnknownTest =
      some ⟨"t1", "frequency", .nan, .nan, 1⟩ :=
  C6_unknown_test_not_fatal scipyStub dfRun 1 specUnknownTest dfRunX dfRunY
    (by decide) rfl (by decide) (by decide)

/-- C7 counterexample: the claim says a KPI operation on a record set
missing the premium/claims columns returns the input unchanged.  Two
*different* record sets without those columns get the identical scalar
NaN result, so the operation cannot be returning its input. -/
theorem C7_missing_columns_not_identity :
    calculate_margin dfOnlyX none false = .scalar .nan ∧
    calculate_margin dfEmptyG none false = .scalar .nan ∧
    dfOnlyX ≠ dfEmptyG := by
  refine ⟨by decide, by decide, by decide⟩

/-- C7 (amended): when the premium or claims column is absent, each KPI
operation signals a warning and returns the scalar NaN (never raising) —
an aggregate value, not the input record set. -/
theorem C7_missing_columns_nan (df : DataFrame) (gb : Option (List String)) (s : Bool)
    (h : ¬ (df.hasCol "TotalPremium" = true ∧ df.hasCol "TotalClaims" = true)) :
    calculate_margin df gb s = .scalar .nan ∧
    calculate_loss_ratio df gb s = .scalar .nan ∧
    (df.hasCol "TotalClaims" = false →
      calculate_claim_frequency df gb s = .scalar .nan ∧
      calculate_claim_severity df gb s = .scalar .nan) := by
  refine ⟨?_, ?_, fun hc => ⟨?_, ?_⟩⟩
  · rw [calculate_margin.eq_def, if_pos (by simpa using h)]
  · rw [calculate_loss_ratio.eq_def, if_pos (fun hh => h ⟨hh.2, hh.1⟩)]
  · rw [calculate_claim_frequency.eq_def, if_pos (by simp [hc])]
  · rw [calculate_claim_severity.eq_def, if_pos (by simp [hc])]

/-- C7 witness: `C7_missing_columns_nan` at a record set with only the
feature column `G`. -/
theorem C7_missing_columns_nan_witness :
    calculate_margin dfOnlyX none false = .scalar .nan ∧
    calculate_loss_ratio dfOnlyX none false = .scalar .nan ∧
    calculate_claim_frequency dfOnlyX none false = .scalar .nan ∧
    calculate_claim_severity dfOnlyX none false = .scalar .nan :=
  have h := C7_missing_columns_nan dfOnlyX none false (by decide)
  ⟨h.1, h.2.1, (h.2.2 (by decide)).1, (h.2.2 (by decide)).2⟩

/-- C8: a spec whose segmentation feature is missing from the record set
is skipped (its loop iteration appends nothing) while a valid spec still
produces its row, so a run over `[invalid, valid]` yields exactly one
result — per-spec failures do not abort the remaining specs. -/
theorem C8_per_spec_isolation (S : Scipy) (df : DataFrame) (s1 s2 : TestSpec) (alpha : ℚ)
    (hreq : df.hasCol "TotalClaims" = true ∧ df.hasCol "TotalPremium" = true)
    (h1 : df.hasCol s1.feature = false)
    (h2seg : ∃ a b, ab_segment df s2.feature s2.group_a s2.group_b = .ok a b)
    (h2cov : s2.covariates = []) (h2kpi : kpiKnown s2.kpi = true) :
    runSpec S df alpha s1 = none ∧
    (runSpec S df alpha s2).isSome = true ∧
    (run_tests S df [s1, s2] alpha).length = 1 := by
  obtain ⟨a, b, hab⟩ := h2seg
  have hskip : runSpec S df alpha s1 = none := by
    have hseg1 : ab_segment df s1.feature s1.group_a s1.group_b = .error .featureNotFound := by
      rw [ab_segment, if_pos (by simp [h1])]
    simp only [runSpec, hseg1]
  have hkeep : runSpec S df alpha s2 =
      some ⟨s2.name, s2.kpi, (toPair (run_test S a b s2.test s2.kpi)).1,
        (toPair (run_test S a b s2.test s2.kpi)).2, alpha⟩ := by
    simp only [runSpec, hab]
    rw [if_neg (by simp [balanceOk, h2cov]), if_neg (by simp [h2kpi])]
  refine ⟨hskip, by rw [hkeep]; rfl, ?_⟩
  rw [run_tests, if_neg (by simp [hreq.1, hreq.2])]
  simp [List.filterMap_cons, hskip, hkeep]

/-- C8 witness: the run of `[specBadFeature, specGood]` over `dfRun`
produces exactly the one row of the valid spec. -/
theorem C8_per_spec_isolation_witness :
    runSpec scipyStub dfRun 1 specBadFeature = none ∧
    (runSpec scipyStub dfRun 1 specGood).isSome = true ∧
    (run_tests scipyStub dfRun [specBadFeature, specGood] 1).length = 1 :=
  C8_per_spec_isolation scipyStub dfRun specBadFeature specGood 1
    ⟨by decide, by decide⟩ (by decide) ⟨dfRunX, dfRunY, by decide⟩ rfl (by decide)

/-- C9 counterexample: the program computes the margin in pandas
float64, and the round-trip `margin + claims == premium` fails under
IEEE-754 rounding.  At the row with premium `2^53 + 2` and claims `1`
(both exact doubles), the float64 margin is `2^53` — already not the
exact `premium - claims` — and float64 `margin + claims` is again
`2^53 ≠ premium`. -/
theorem C9_float_roundtrip_fails :
    marginCellF64 (rowPC 9007199254740994 1) = .num 9007199254740992 ∧
    f64add 9007199254740992 1 = 9007199254740992 ∧
    (9007199254740992 : ℚ) ≠ 9007199254740994 ∧
    (9007199254740992 : ℚ) ≠ 9007199254740994 - 1 := by
  have hd : (9007199254740994 : ℚ) - 1 = 9007199254740993 := by norm_num
  have hs : f64sub 9007199254740994 1 = 9007199254740992 := by
    rw [f64sub, hd, roundD_tie53]
  have ha : f64add 9007199254740992 1 = 9007199254740992 := by
    rw [f64add, show (9007199254740992 : ℚ) + 1 = 9007199254740993 from by norm_num,
      roundD_tie53]
  refine ⟨?_, ha, by norm_num, by norm_num⟩
  show vsubF64 (.num 9007199254740994) (.num 1) = .num 9007199254740992
  rw [vsubF64, hs]

/-- C9 (amended): the margin KPI is the float64 rounding of
`premium - claims`, so the round-trip `margin + claims == premium`
holds exactly when the subtraction incurs no rounding error — then the
re-addition recovers the representable premium exactly — and can fail
by rounding otherwise. -/
theorem C9_margin_roundtrip_exact (r : Row) (p c : ℚ)
    (hp : rowGet r "TotalPremium" = .num p) (hc : rowGet r "TotalClaims" = .num c)
    (hrep : roundD p = p) (hsub : roundD (p - c) = p - c) :
    marginCellF64 r = .num (p - c) ∧ f64add (f64sub p c) c = p := by
  have hs : f64sub p c = p - c := by rw [f64sub, hsub]
  constructor
  · rw [marginCellF64, hp, hc, vsubF64, hs]
  · rw [f64add, hs, show p - c + c = p from by ring, hrep]

/-- C9 witness: the exact round-trip at the row (premium 10, claims 4),
whose difference 6 is an exact double. -/
theorem C9_margin_roundtrip_exact_witness :
    marginCellF64 (rowPC 10 4) = .num (10 - 4) ∧ f64add (f64sub 10 4) 4 = 10 :=
  C9_margin_roundtrip_exact (rowPC 10 4) 10 4 rfl rfl roundD_of_ten
    (by rw [show (10 : ℚ) - 4 = 6 from by norm_num]; exact roundD_of_six)

/-- C10: `chi2_test` never reads its `kpi` argument — it always tests
claim-occurrence counts — so its result is the same for any two
requested KPI strings. -/
theorem C10_chi2_ignores_kpi (S : Scipy) (dfa dfb : DataFrame) (k1 k2 : String) :
    chi2_test S dfa dfb k1 = chi2_test S dfa dfb k2 := rfl

end InsuranceRisk
